import Mathlib

/-
  Verification development for the GCFL gradient-compression optimizer wrappers
  (src/grace_fl/gc_optimizer.py and src/main.py).

  Tensors are modelled as lists of rationals (exact arithmetic, elementwise
  operations).  The concrete compressors (grace_fl/signSGD.py etc.) are not part
  of the sources under study, so the compressor is an abstract structure of pure
  functions over tensors; where a claim depends on compressor-internal state the
  definition carries a `Modelled from the spec:` doc comment.
-/

namespace GCFL

/-- A tensor is a flat list of rational entries (elementwise view of a
PyTorch tensor; all operations in the wrappers are elementwise). -/
abbrev Tensor := List ℚ

/-- Elementwise addition, `a += b` / `a + b` on tensors. -/
def tadd (a b : Tensor) : Tensor := List.zipWith (fun x y => x + y) a b

/-- Elementwise subtraction `a - b` on tensors. -/
def tsub (a b : Tensor) : Tensor := List.zipWith (fun x y => x - y) a b

/-- Elementwise negation `-a`. -/
def tneg (a : Tensor) : Tensor := a.map (fun x => -x)

/-- Scalar multiplication `c * a`. -/
def smul (c : ℚ) (a : Tensor) : Tensor := a.map (fun x => c * x)

/-- In-place `tensor.zero_()`: an all-zero tensor of the same shape. -/
def zeroLike (a : Tensor) : Tensor := a.map (fun _ => (0 : ℚ))

/-- `param.data.add_(d, alpha=-lr)`: elementwise `p - lr * d`. -/
def applyLr (lr : ℚ) (p d : Tensor) : Tensor := List.zipWith (fun x y => x - lr * y) p d

/-- The tensor is exactly the all-zero tensor. -/
def isZero (t : Tensor) : Prop := ∀ x ∈ t, x = 0

instance (t : Tensor) : Decidable (isZero t) := by unfold isZero; exact List.decidableBAll _ t

/-- Clearing the local gradients after a gather: `param.grad.detach_();
param.grad.zero_()` for every parameter whose gradient is present. -/
def zeroGrads (gs : List (Option Tensor)) : List (Option Tensor) :=
  gs.map (Option.map zeroLike)

/-- Abstract interface of a `grace_fl` compressor, as used by the optimizer
wrappers in src/grace_fl/gc_optimizer.py.  `E` is the opaque encoded type.
The concrete compressors are outside the sources under study, so all fields
are abstract pure functions; `decompress` receives the target shape (here a
length), mirroring `decompress(encodedTensor, shape=...)`. -/
structure GraceCompressor (E : Type) where
  compress : Tensor → E
  compressSign : Tensor → Int → E
  decompress : E → Nat → Tensor
  compressWithReference : Tensor → Tensor → E
  decompressWithReference : E → Tensor → Tensor
  transAggregation : Tensor → Tensor
  transAggregationSign : Tensor → Int → Tensor

/-- `decompress(compress(t), shape=t.shape)`: one compress/decompress round
trip of a raw gradient. -/
def roundTrip {E : Type} (C : GraceCompressor E) (t : Tensor) : Tensor :=
  C.decompress (C.compress t) t.length

/-- A concrete lossless compressor instance (identity coding, residual coding
as subtraction against the reference), used to evaluate the model on concrete
inputs. -/
def idGrace : GraceCompressor Tensor where
  compress := fun t => t
  compressSign := fun t _ => t
  decompress := fun e _ => e
  compressWithReference := fun t r => tsub t r
  decompressWithReference := fun e r => tadd e r
  transAggregation := fun t => t
  transAggregationSign := fun t _ => t

/- ### Plain wrapper `_graceOptimizer`

The repository constructs every wrapper from `optim.SGD(params=model.parameters(), ...)`,
which yields a single parameter group; the state below carries that group's
`lr` together with the per-parameter lists (`params[i]`, `params[i].grad`,
`_gatheredGradients[i]`). -/

structure GraceState where
  lr : ℚ
  params : List Tensor
  grads : List (Option Tensor)
  gathered : List Tensor

/-- Loop body of `_graceOptimizer.gather`: for each parameter (skipping absent
gradients) accumulate `decompress(compress(grad), shape=grad.shape)` into
`_gatheredGradients[i]`. -/
def graceGatherAcc {E : Type} (C : GraceCompressor E) :
    List (Option Tensor) → List Tensor → List Tensor
  | g :: gs, a :: rest =>
    (match g with
     | none => a
     | some gr => tadd a (roundTrip C gr)) :: graceGatherAcc C gs rest
  | _, acc => acc

/-- `_graceOptimizer.gather` (src/grace_fl/gc_optimizer.py lines 76-89). -/
def graceGather {E : Type} (C : GraceCompressor E) (s : GraceState) : GraceState :=
  { s with gathered := graceGatherAcc C s.grads s.gathered,
           grads := zeroGrads s.grads }

/-- Loop body of `_graceOptimizer.step`: `d_param = trans_aggregation(gathered[i])`,
`param.data.add_(d_param, alpha=-lr)`, `gathered[i].zero_()`. -/
def graceStepAux {E : Type} (C : GraceCompressor E) (lr : ℚ) :
    List Tensor → List Tensor → List Tensor × List Tensor
  | p :: ps, a :: as_ =>
    let rest := graceStepAux C lr ps as_
    (applyLr lr p (C.transAggregation a) :: rest.1, zeroLike a :: rest.2)
  | ps, as_ => (ps, as_)

/-- `_graceOptimizer.step` (src/grace_fl/gc_optimizer.py lines 91-99). -/
def graceStep {E : Type} (C : GraceCompressor E) (s : GraceState) : GraceState :=
  let r := graceStepAux C s.lr s.params s.gathered
  { s with params := r.1, gathered := r.2 }

/-- One communication round of client gathers: each client's backward pass
writes its gradients, then `gather` consumes them. -/
def graceRound {E : Type} (C : GraceCompressor E)
    (gss : List (List (Option Tensor))) (s : GraceState) : GraceState :=
  gss.foldl (fun st gs => graceGather C { st with grads := gs }) s

/- ### Predictive wrapper `_predOptimizer` -/

structure PredState where
  lr : ℚ
  momentum : ℚ
  params : List Tensor
  grads : List (Option Tensor)
  gathered : List Tensor
  buffer : List Tensor
  bufferEmpty : Bool
  momentumBuf : List (Option Tensor)

/-- Per-parameter gather contribution of `_predOptimizer.gather`: raw
compress/decompress while the reference buffer is empty, residual coding
against `_buffer[i]` otherwise. -/
def predContrib {E : Type} (C : GraceCompressor E) (empty : Bool)
    (gr buf : Tensor) : Tensor :=
  if empty then roundTrip C gr
  else C.decompressWithReference (C.compressWithReference gr buf) buf

/-- Loop body of `_predOptimizer.gather`; the reference buffer list is read
positionally alongside the parameters. -/
def predGatherAcc {E : Type} (C : GraceCompressor E) (empty : Bool) :
    List (Option Tensor) → List Tensor → List Tensor → List Tensor
  | g :: gs, a :: rest, bs =>
    (match g with
     | none => a
     | some gr => tadd a (predContrib C empty gr (bs.headD []))) ::
      predGatherAcc C empty gs rest bs.tail
  | _, acc, _ => acc

/-- `_predOptimizer.gather` (src/grace_fl/gc_optimizer.py lines 123-143). -/
def predGather {E : Type} (C : GraceCompressor E) (s : PredState) : PredState :=
  { s with gathered := predGatherAcc C s.bufferEmpty s.grads s.gathered s.buffer,
           grads := zeroGrads s.grads }

/-- The quantity `d_param` actually applied by `_predOptimizer.step` for one
parameter: `trans_aggregation` of the accumulation buffer, passed through a
compress/decompress round trip (raw or residual against `_buffer[i]`) when
momentum is nonzero.  Note this is built from the unsmoothed `d_param`, not
from the momentum buffer. -/
def predD1 {E : Type} (C : GraceCompressor E) (mom : ℚ) (empty : Bool)
    (p b a : Tensor) : Tensor :=
  let d0 := C.transAggregation a
  if mom ≠ 0 then
    (if empty then C.decompress (C.compress d0) p.length
     else C.decompressWithReference (C.compressWithReference d0 b) b)
  else d0

/-- Momentum-state update of `_predOptimizer.step`: when momentum is nonzero
the buffer becomes `momentum * buf + d_param` (or a clone of `d_param` on
first use); otherwise the state entry is untouched. -/
def predBufUpd {E : Type} (C : GraceCompressor E) (mom : ℚ)
    (m : Option Tensor) (a : Tensor) : Option Tensor :=
  if mom ≠ 0 then
    some (match m with
          | none => C.transAggregation a
          | some b => tadd (smul mom b) (C.transAggregation a))
  else m

/-- Loop body of `_predOptimizer.step` over (params, gathered, buffer,
momentum state). -/
def predStepAux {E : Type} (C : GraceCompressor E) (lr mom : ℚ) (empty : Bool) :
    List Tensor → List Tensor → List Tensor → List (Option Tensor) →
    List Tensor × List Tensor × List Tensor × List (Option Tensor)
  | p :: ps, a :: as_, b :: bs, m :: ms =>
    let rest := predStepAux C lr mom empty ps as_ bs ms
    let d1 := predD1 C mom empty p b a
    (applyLr lr p d1 :: rest.1, zeroLike a :: rest.2.1, d1 :: rest.2.2.1,
     predBufUpd C mom m a :: rest.2.2.2)
  | ps, as_, bs, ms => (ps, as_, bs, ms)

/-- `_predOptimizer.step` (src/grace_fl/gc_optimizer.py lines 146-180):
updates the momentum state, applies `d_param`, zeroes the accumulation
buffer, registers the applied `d_param` as the new reference buffer, and
finally marks the reference buffer nonempty. -/
def predStep {E : Type} (C : GraceCompressor E) (s : PredState) : PredState :=
  let r := predStepAux C s.lr s.momentum s.bufferEmpty s.params s.gathered s.buffer s.momentumBuf
  { s with params := r.1, gathered := r.2.1, buffer := r.2.2.1,
           momentumBuf := r.2.2.2, bufferEmpty := false }

/-- One communication round of client gathers for the predictive wrapper. -/
def predRound {E : Type} (C : GraceCompressor E)
    (gss : List (List (Option Tensor))) (s : PredState) : PredState :=
  gss.foldl (fun st gs => predGather C { st with grads := gs }) s

/- ### Turn-mode wrapper `_predTurnOptimizer` -/

/-- Messages written through `logging.error` by the code under study. -/
inductive LogMsg
  | missingHyper
  | missingSamples
  | turnMissing
deriving DecidableEq, Repr

/-- `1 if turn % 2 == 0 else -1` (src/grace_fl/gc_optimizer.py line 212).
Lean's `%` on `Int` agrees with Python's `%` (result in `[0, 2)`). -/
def parSign (t : Int) : Int := if t % 2 = 0 then 1 else -1

/-- Boolean tensor `grad > eps` cast to numbers, as added onto the plus-sign
buffer (`const.EPSILON` is not among the sources, so the threshold is a
parameter). -/
def indPos (eps : ℚ) (g : Tensor) : Tensor :=
  g.map (fun x => if eps < x then (1 : ℚ) else 0)

/-- Boolean tensor `grad < -eps` cast to numbers, as added onto the
minus-sign buffer. -/
def indNeg (eps : ℚ) (g : Tensor) : Tensor :=
  g.map (fun x => if x < -eps then (1 : ℚ) else 0)

/-- State of `_predTurnOptimizer`.  `wrapperSign` is the optimizer-instance
attribute `self._current_sign` (written from turn parity in `gather`);
`graceSign` is the compressor-held `self.grace._current_sign` exposed by the
`current_sign` property and read by the branch logic of `gather` and `step`. -/
structure TurnState where
  lr : ℚ
  params : List Tensor
  grads : List (Option Tensor)
  gathered : List Tensor
  plus : List Tensor
  minus : List Tensor
  bufferEmpty : Bool
  wrapperSign : Int
  graceSign : Int
  turn : Option Int
  log : List LogMsg

/-- Per-parameter gather contribution of `_predTurnOptimizer.gather`:
sign-annotated raw coding while the buffers are empty, otherwise residual
coding against the plus or minus buffer selected by the effective sign. -/
def turnContrib {E : Type} (C : GraceCompressor E) (empty : Bool)
    (effSign : Int) (gr p m : Tensor) : Tensor :=
  if empty then C.decompress (C.compressSign gr effSign) gr.length
  else if effSign = 1 then
    C.decompressWithReference (C.compressWithReference gr p) p
  else
    C.decompressWithReference (C.compressWithReference gr m) m

/-- Loop body of `_predTurnOptimizer.gather` over (grads, gathered, plus,
minus); besides the accumulation, the buffer opposite to the effective sign
accumulates the drift indicator of the raw gradient. -/
def turnGatherAcc {E : Type} (C : GraceCompressor E) (eps : ℚ) (empty : Bool)
    (effSign : Int) :
    List (Option Tensor) → List Tensor → List Tensor → List Tensor →
    List Tensor × List Tensor × List Tensor
  | g :: gs, a :: as_, p :: ps, m :: ms =>
    let rest := turnGatherAcc C eps empty effSign gs as_ ps ms
    match g with
    | none => (a :: rest.1, p :: rest.2.1, m :: rest.2.2)
    | some gr =>
      (tadd a (turnContrib C empty effSign gr p m) :: rest.1,
       (if effSign = 1 then p else tadd p (indPos eps gr)) :: rest.2.1,
       (if effSign = 1 then tadd m (indNeg eps gr) else m) :: rest.2.2)
  | _, as_, ps, ms => (as_, ps, ms)

/-- True when some parameter carries a gradient, i.e. the gather loop calls
the compressor at least once. -/
def anyGrad (gs : List (Option Tensor)) : Bool := gs.any (fun g => g.isSome)

/-- Body of `_predTurnOptimizer.gather` after the `turn` handling
(src/grace_fl/gc_optimizer.py lines 216-240).

Modelled from the spec: the concrete compressors (grace_fl/signSGD.py and
friends) are not among the sources under study; per the design notes the
"current sign" is mutated through the back-reference between wrapper and
compressor, so a `compress(..., sign=s)` call is modelled as storing `s` into
`grace._current_sign`.  Hence while the buffers are empty the branch logic
reads the freshly written `wrapperSign`, and otherwise — where
`compress_with_reference` receives no sign — it reads the unchanged
`graceSign`. -/
def turnGatherBody {E : Type} (C : GraceCompressor E) (eps : ℚ)
    (s : TurnState) : TurnState :=
  let effSign := if s.bufferEmpty then s.wrapperSign else s.graceSign
  let r := turnGatherAcc C eps s.bufferEmpty effSign s.grads s.gathered s.plus s.minus
  { s with gathered := r.1, plus := r.2.1, minus := r.2.2,
           grads := zeroGrads s.grads,
           graceSign := if s.bufferEmpty && anyGrad s.grads then s.wrapperSign
                        else s.graceSign }

/-- `_predTurnOptimizer.gather` (src/grace_fl/gc_optimizer.py lines 207-240):
with a `turn` keyword it stores the turn and the parity sign into the
instance attributes, without one it logs a configuration error and falls
through to the gathering loop with the previous sign state. -/
def turnGather {E : Type} (C : GraceCompressor E) (eps : ℚ)
    (turnArg : Option Int) (s : TurnState) : TurnState :=
  match turnArg with
  | some t => turnGatherBody C eps { s with turn := some t, wrapperSign := parSign t }
  | none => turnGatherBody C eps { s with log := s.log ++ [LogMsg.turnMissing] }

/-- Plus-sign buffer update of `_predTurnOptimizer.step`: zeroed when the
current sign is `+1`, otherwise folded through `trans_aggregation` with the
negated sign. -/
def turnPlusUpd {E : Type} (C : GraceCompressor E) (sign : Int) (pb : Tensor) : Tensor :=
  if sign = 1 then zeroLike pb else C.transAggregationSign pb (-sign)

/-- Minus-sign buffer update of `_predTurnOptimizer.step`: negatively folded
through `trans_aggregation` when the current sign is `+1`, zeroed otherwise. -/
def turnMinusUpd {E : Type} (C : GraceCompressor E) (sign : Int) (mb : Tensor) : Tensor :=
  if sign = 1 then tneg (C.transAggregationSign mb (-sign)) else zeroLike mb

/-- The update applied by `_predTurnOptimizer.step`:
`current_sign * trans_aggregation(gathered)`. -/
def turnD1 {E : Type} (C : GraceCompressor E) (sign : Int) (a : Tensor) : Tensor :=
  smul (sign : ℚ) (C.transAggregation a)

/-- Loop body of `_predTurnOptimizer.step` over (params, gathered, plus, minus). -/
def turnStepAux {E : Type} (C : GraceCompressor E) (lr : ℚ) (sign : Int) :
    List Tensor → List Tensor → List Tensor → List Tensor →
    List Tensor × List Tensor × List Tensor × List Tensor
  | p :: ps, a :: as_, pb :: pbs, mb :: mbs =>
    let rest := turnStepAux C lr sign ps as_ pbs mbs
    (applyLr lr p (turnD1 C sign a) :: rest.1, zeroLike a :: rest.2.1,
     turnPlusUpd C sign pb :: rest.2.2.1, turnMinusUpd C sign mb :: rest.2.2.2)
  | ps, as_, pbs, mbs => (ps, as_, pbs, mbs)

/-- `_predTurnOptimizer.step` (src/grace_fl/gc_optimizer.py lines 243-262);
the sign consulted is the `current_sign` property, i.e. `graceSign`. -/
def turnStep {E : Type} (C : GraceCompressor E) (s : TurnState) : TurnState :=
  let r := turnStepAux C s.lr s.graceSign s.params s.gathered s.plus s.minus
  { s with params := r.1, gathered := r.2.1, plus := r.2.2.1, minus := r.2.2.2,
           bufferEmpty := false }

/- ### Wrapper factory `grace_optimizer` and `parse_config` -/

/-- The three wrapper classes the factory can instantiate. -/
inductive WrapperKind
  | predTurn
  | pred
  | plain
deriving DecidableEq, Repr

/-- Outcome of the factory: a constructed wrapper, or the uncaught Python
`UnboundLocalError` raised when no branch assigned `cls`. -/
inductive FactoryResult
  | ok (k : WrapperKind)
  | unboundLocalError
deriving DecidableEq, Repr

/-- `grace_optimizer` (src/grace_fl/gc_optimizer.py lines 273-305): defaults
`mode` to `3` when the keyword is absent, dispatches on `0`, `1`, `3`, and
otherwise reaches `cls(...)` with `cls` unassigned. -/
def grace_optimizer (modeKw : Option Int) : FactoryResult :=
  let mode := match modeKw with
    | some m => m
    | none => 3
  if mode = 0 then FactoryResult.ok WrapperKind.predTurn
  else if mode = 1 then FactoryResult.ok WrapperKind.pred
  else if mode = 3 then FactoryResult.ok WrapperKind.plain
  else FactoryResult.unboundLocalError

/-- The configuration switches consumed by `parse_config` in src/main.py. -/
structure Config where
  predictive : Bool
  take_turns : Bool

/-- `parse_config` (src/main.py lines 37-47). -/
def parse_config (c : Config) : Int :=
  if c.predictive && c.take_turns then 0
  else if c.predictive then 1
  else if c.take_turns then 2
  else 3

/- ### `LocalUpdater.__init__` -/

/-- The fields of the `user_resource` mapping read during construction
(`images`/`labels` modelled by presence only; `device` identifiers as
numbers). -/
structure UserResource where
  batch_size : Option Nat
  device : Option Nat
  images : Option Tensor
  labels : Option Tensor

/-- Python exceptions that can escape `LocalUpdater.__init__`. -/
inductive PyErr
  | keyError
  | attributeError
deriving DecidableEq, Repr

/-- The attributes a constructed `LocalUpdater` ends up with; `device = none`
means the attribute was never assigned (partially-initialized object). -/
structure LocalUpdaterObj where
  batchSize : Nat
  device : Option Nat
deriving DecidableEq, Repr

/-- Constructor outcome: an object, or an uncaught exception. -/
inductive InitResult
  | ok (o : LocalUpdaterObj)
  | raised (e : PyErr)
deriving DecidableEq, Repr

/-- `LocalUpdater.__init__` (src/grace_fl/gc_optimizer.py lines 14-42),
paired with the log it produces.  The `try` block reads `batch_size` then
`device` and asserts the presence of `images` and `labels`; `KeyError` and
`AssertionError` are caught and logged, after which execution falls through
to the `DataLoader` construction, which looks up `images` and `labels`
(uncaught `KeyError` when absent) and reads `self.batchSize` (uncaught
`AttributeError` when the first lookup had failed). -/
def localUpdaterInit (ur : UserResource) : InitResult × List LogMsg :=
  match ur.batch_size with
  | none =>
    match ur.images with
    | none => (InitResult.raised PyErr.keyError, [LogMsg.missingHyper])
    | some _ =>
      match ur.labels with
      | none => (InitResult.raised PyErr.keyError, [LogMsg.missingHyper])
      | some _ => (InitResult.raised PyErr.attributeError, [LogMsg.missingHyper])
  | some bs =>
    match ur.device with
    | none =>
      match ur.images with
      | none => (InitResult.raised PyErr.keyError, [LogMsg.missingHyper])
      | some _ =>
        match ur.labels with
        | none => (InitResult.raised PyErr.keyError, [LogMsg.missingHyper])
        | some _ => (InitResult.ok ⟨bs, none⟩, [LogMsg.missingHyper])
    | some d =>
      match ur.images with
      | none => (InitResult.raised PyErr.keyError, [LogMsg.missingSamples])
      | some _ =>
        match ur.labels with
        | none => (InitResult.raised PyErr.keyError, [LogMsg.missingSamples])
        | some _ => (InitResult.ok ⟨bs, some d⟩, [])

/- ### Sample states used to evaluate the model on concrete inputs -/

/-- A sample plain-wrapper state with one parameter. -/
def sG1 : GraceState := ⟨1, [[2]], [some [3]], [[5]]⟩

/-- A sample predictive-wrapper state with one parameter. -/
def sP1 : PredState := ⟨1, 1/2, [[2]], [some [3]], [[5]], [[7]], false, [none]⟩

/-- A sample turn-wrapper state with one parameter. -/
def sT1 : TurnState := ⟨1, [[2]], [some [3]], [[5]], [[1]], [[1]], false, 1, 1, none, []⟩

/-- A sample plain-wrapper state with two parameters, the first lacking a
gradient. -/
def sG2 : GraceState := ⟨1, [[1], [2]], [none, some [3]], [[4], [5]]⟩

/-- A sample predictive-wrapper state with two parameters, the first lacking
a gradient. -/
def sP2 : PredState :=
  ⟨1, 0, [[1], [2]], [none, some [3]], [[4], [5]], [[6], [7]], false, [none, none]⟩

/-- A sample turn-wrapper state with two parameters, the first lacking a
gradient. -/
def sT2 : TurnState :=
  ⟨1, [[1], [2]], [none, some [3]], [[4], [5]], [[6], [7]], [[8], [9]], false, 1, 1, none, []⟩

/-- The turn-wrapper state after the run `gather(turn=0)` (round 0, buffers
empty), `step()`, then `gather(turn=1)` with gradient `[-1]` each time,
starting from a freshly constructed one-parameter wrapper. -/
def turnRunS3 : TurnState :=
  turnGather idGrace (1 / 100) (some 1)
    { turnStep idGrace (turnGather idGrace (1 / 100) (some 0)
        ⟨1, [[0]], [some [-1]], [[0]], [[0]], [[0]], true, 1, 1, none, []⟩) with
      grads := [some [-1]] }

/- ### Helper lemmas -/

theorem tadd_right_comm (a x y : Tensor) : tadd (tadd a x) y = tadd (tadd a y) x := by
  induction a generalizing x y with
  | nil => simp [tadd]
  | cons h t ih =>
    cases x with
    | nil => simp [tadd]
    | cons hx tx =>
      cases y with
      | nil => simp [tadd]
      | cons hy ty =>
        simp only [tadd, List.zipWith] at ih ⊢
        congr 1
        · ring
        · exact ih tx ty

theorem isZero_zeroLike (t : Tensor) : isZero (zeroLike t) := by
  intro x hx
  simp only [zeroLike, List.mem_map] at hx
  obtain ⟨u, _, rfl⟩ := hx
  rfl

theorem tadd_zeroLike_left (t x : Tensor) (h : x.length = t.length) :
    tadd (zeroLike t) x = x := by
  induction t generalizing x with
  | nil =>
    cases x with
    | nil => rfl
    | cons hx tx => simp at h
  | cons ht tt ih =>
    cases x with
    | nil => simp at h
    | cons hx tx =>
      simp only [List.length_cons, Nat.succ.injEq] at h
      simp only [zeroLike, List.map, tadd, List.zipWith, zero_add]
      exact congrArg _ (ih tx h)

theorem graceStepAux_eq {E : Type} (C : GraceCompressor E) (lr : ℚ)
    (ps as : List Tensor) (h : as.length = ps.length) :
    graceStepAux C lr ps as =
      (List.zipWith (fun p a => applyLr lr p (C.transAggregation a)) ps as,
       as.map zeroLike) := by
  induction ps generalizing as with
  | nil =>
    cases as with
    | nil => rfl
    | cons a as_ => simp at h
  | cons p ps ih =>
    cases as with
    | nil => simp at h
    | cons a as_ =>
      simp only [List.length_cons, Nat.succ.injEq] at h
      simp [graceStepAux, ih as_ h]

theorem predStepAux_eq {E : Type} (C : GraceCompressor E) (lr mom : ℚ)
    (empty : Bool) (ps as bs : List Tensor) (ms : List (Option Tensor))
    (h1 : as.length = ps.length) (h2 : bs.length = ps.length)
    (h3 : ms.length = ps.length) :
    predStepAux C lr mom empty ps as bs ms =
      (List.zipWith (fun p ab => applyLr lr p (predD1 C mom empty p ab.2 ab.1))
         ps (as.zip bs),
       as.map zeroLike,
       List.zipWith (fun p ab => predD1 C mom empty p ab.2 ab.1) ps (as.zip bs),
       List.zipWith (predBufUpd C mom) ms as) := by
  induction ps generalizing as bs ms with
  | nil =>
    cases as with
    | nil =>
      cases bs with
      | nil =>
        cases ms with
        | nil => rfl
        | cons m ms_ => simp at h3
      | cons b bs_ => simp at h2
    | cons a as_ => simp at h1
  | cons p ps ih =>
    cases as with
    | nil => simp at h1
    | cons a as_ =>
      cases bs with
      | nil => simp at h2
      | cons b bs_ =>
        cases ms with
        | nil => simp at h3
        | cons m ms_ =>
          simp only [List.length_cons, Nat.succ.injEq] at h1 h2 h3
          simp [predStepAux, ih as_ bs_ ms_ h1 h2 h3, List.zip]

theorem turnStepAux_eq {E : Type} (C : GraceCompressor E) (lr : ℚ) (sign : Int)
    (ps as pbs mbs : List Tensor)
    (h1 : as.length = ps.length) (h2 : pbs.length = ps.length)
    (h3 : mbs.length = ps.length) :
    turnStepAux C lr sign ps as pbs mbs =
      (List.zipWith (fun p a => applyLr lr p (turnD1 C sign a)) ps as,
       as.map zeroLike,
       pbs.map (turnPlusUpd C sign),
       mbs.map (turnMinusUpd C sign)) := by
  induction ps generalizing as pbs mbs with
  | nil =>
    cases as with
    | nil =>
      cases pbs with
      | nil =>
        cases mbs with
        | nil => rfl
        | cons m ms_ => simp at h3
      | cons b bs_ => simp at h2
    | cons a as_ => simp at h1
  | cons p ps ih =>
    cases as with
    | nil => simp at h1
    | cons a as_ =>
      cases pbs with
      | nil => simp at h2
      | cons pb pbs_ =>
        cases mbs with
        | nil => simp at h3
        | cons mb mbs_ =>
          simp only [List.length_cons, Nat.succ.injEq] at h1 h2 h3
          simp [turnStepAux, ih as_ pbs_ mbs_ h1 h2 h3]

theorem forall_isZero_map_zeroLike (l : List Tensor) :
    ∀ t ∈ l.map zeroLike, isZero t := by
  intro t ht
  simp only [List.mem_map] at ht
  obtain ⟨u, _, rfl⟩ := ht
  exact isZero_zeroLike u

theorem foldl_perm_of_comm {α β : Type} (f : β → α → β)
    (hc : ∀ b a1 a2, f (f b a1) a2 = f (f b a2) a1)
    {l1 l2 : List α} (h : l1.Perm l2) : ∀ b, l1.foldl f b = l2.foldl f b := by
  induction h with
  | nil => intro b; rfl
  | cons x _ ih => intro b; simp only [List.foldl_cons]; exact ih _
  | swap x y l => intro b; simp only [List.foldl_cons, hc]
  | trans _ _ ih1 ih2 => intro b; exact (ih1 b).trans (ih2 b)

theorem graceGatherAcc_comm {E : Type} (C : GraceCompressor E)
    (g1 g2 : List (Option Tensor)) (acc : List Tensor) :
    graceGatherAcc C g2 (graceGatherAcc C g1 acc) =
    graceGatherAcc C g1 (graceGatherAcc C g2 acc) := by
  induction acc generalizing g1 g2 with
  | nil => cases g1 <;> cases g2 <;> simp [graceGatherAcc]
  | cons a rest ih =>
    cases g1 with
    | nil => simp [graceGatherAcc]
    | cons h1 t1 =>
      cases g2 with
      | nil => simp [graceGatherAcc]
      | cons h2 t2 =>
        cases h1 <;> cases h2 <;>
          simp [graceGatherAcc, ih, tadd_right_comm]

theorem predGatherAcc_comm {E : Type} (C : GraceCompressor E) (empty : Bool)
    (g1 g2 : List (Option Tensor)) (acc bs : List Tensor) :
    predGatherAcc C empty g2 (predGatherAcc C empty g1 acc bs) bs =
    predGatherAcc C empty g1 (predGatherAcc C empty g2 acc bs) bs := by
  induction acc generalizing g1 g2 bs with
  | nil => cases g1 <;> cases g2 <;> simp [predGatherAcc]
  | cons a rest ih =>
    cases g1 with
    | nil => simp [predGatherAcc]
    | cons h1 t1 =>
      cases g2 with
      | nil => simp [predGatherAcc]
      | cons h2 t2 =>
        cases h1 <;> cases h2 <;>
          simp [predGatherAcc, ih, tadd_right_comm]

theorem graceRound_gathered {E : Type} (C : GraceCompressor E)
    (gss : List (List (Option Tensor))) (s : GraceState) :
    (graceRound C gss s).gathered =
      gss.foldl (fun acc gs => graceGatherAcc C gs acc) s.gathered := by
  induction gss generalizing s with
  | nil => rfl
  | cons gs gss ih =>
    show (graceRound C gss (graceGather C { s with grads := gs })).gathered = _
    rw [ih]
    rfl

theorem predRound_gathered {E : Type} (C : GraceCompressor E)
    (gss : List (List (Option Tensor))) (s : PredState) :
    (predRound C gss s).gathered =
      gss.foldl (fun acc gs => predGatherAcc C s.bufferEmpty gs acc s.buffer)
        s.gathered := by
  induction gss generalizing s with
  | nil => rfl
  | cons gs gss ih =>
    show (predRound C gss (predGather C { s with grads := gs })).gathered = _
    rw [ih]
    rfl

theorem predGatherAcc_empty_some {E : Type} (C : GraceCompressor E)
    (g : List Tensor) (as bs : List Tensor) (h : as.length = g.length) :
    predGatherAcc C true (g.map some) as bs =
      List.zipWith (fun a x => tadd a (roundTrip C x)) as g := by
  induction g generalizing as bs with
  | nil =>
    cases as with
    | nil => rfl
    | cons a as_ => simp at h
  | cons x g ih =>
    cases as with
    | nil => simp at h
    | cons a as_ =>
      simp only [List.length_cons, Nat.succ.injEq] at h
      simp [predGatherAcc, predContrib, ih as_ bs.tail h]

theorem zipWith_rt_zeroLike {E : Type} (C : GraceCompressor E)
    (hDC : ∀ t : Tensor, (roundTrip C t).length = t.length) (g : List Tensor) :
    List.zipWith (fun a x => tadd a (roundTrip C x)) (g.map zeroLike) g =
      g.map (roundTrip C) := by
  induction g with
  | nil => rfl
  | cons x g ih => simp [tadd_zeroLike_left _ _ (hDC x), ih]

theorem zipWith_rt_map {E : Type} (C : GraceCompressor E) (g1 g2 : List Tensor) :
    List.zipWith (fun a y => tadd a (roundTrip C y)) (g1.map (roundTrip C)) g2 =
      List.zipWith (fun x y => tadd (roundTrip C x) (roundTrip C y)) g1 g2 := by
  induction g1 generalizing g2 with
  | nil => rfl
  | cons x g ih =>
    cases g2 with
    | nil => rfl
    | cons y g2 => simp [ih]

theorem zipWith_comp {α β γ δ : Type} (f : α → γ → δ) (g : α → β → γ)
    (ps : List α) (qs : List β) :
    List.zipWith (fun p q => f p (g p q)) ps qs =
    List.zipWith f ps (List.zipWith g ps qs) := by
  induction ps generalizing qs with
  | nil => rfl
  | cons p ps ih =>
    cases qs with
    | nil => rfl
    | cons q qs => simp [ih]

theorem graceGatherAcc_get_none {E : Type} (C : GraceCompressor E)
    (gs : List (Option Tensor)) (as : List Tensor) (i : ℕ)
    (h : gs[i]? = some none) :
    (graceGatherAcc C gs as)[i]? = as[i]? := by
  induction i generalizing gs as with
  | zero =>
    cases gs with
    | nil => simp at h
    | cons g gs =>
      simp only [List.getElem?_cons_zero, Option.some.injEq] at h
      subst h
      cases as with
      | nil => simp [graceGatherAcc]
      | cons a as_ => simp [graceGatherAcc]
  | succ i ih =>
    cases gs with
    | nil => simp at h
    | cons g gs =>
      simp only [List.getElem?_cons_succ] at h
      cases as with
      | nil => simp [graceGatherAcc]
      | cons a as_ =>
        simp only [graceGatherAcc, List.getElem?_cons_succ]
        exact ih gs as_ h

theorem graceGatherAcc_get_some {E : Type} (C : GraceCompressor E)
    (gs : List (Option Tensor)) (as : List Tensor) (i : ℕ) (gr a : Tensor)
    (hg : gs[i]? = some (some gr)) (ha : as[i]? = some a) :
    (graceGatherAcc C gs as)[i]? = some (tadd a (roundTrip C gr)) := by
  induction i generalizing gs as with
  | zero =>
    cases gs with
    | nil => simp at hg
    | cons g gs =>
      cases as with
      | nil => simp at ha
      | cons a0 as_ =>
        simp only [List.getElem?_cons_zero, Option.some.injEq] at hg ha
        subst hg
        subst ha
        simp [graceGatherAcc]
  | succ i ih =>
    cases gs with
    | nil => simp at hg
    | cons g gs =>
      cases as with
      | nil => simp at ha
      | cons a0 as_ =>
        simp only [List.getElem?_cons_succ] at hg ha
        simp only [graceGatherAcc, List.getElem?_cons_succ]
        exact ih gs as_ hg ha

theorem predGatherAcc_get_none {E : Type} (C : GraceCompressor E)
    (empty : Bool) (gs : List (Option Tensor)) (as bs : List Tensor) (i : ℕ)
    (h : gs[i]? = some none) :
    (predGatherAcc C empty gs as bs)[i]? = as[i]? := by
  induction i generalizing gs as bs with
  | zero =>
    cases gs with
    | nil => simp at h
    | cons g gs =>
      simp only [List.getElem?_cons_zero, Option.some.injEq] at h
      subst h
      cases as with
      | nil => simp [predGatherAcc]
      | cons a as_ => simp [predGatherAcc]
  | succ i ih =>
    cases gs with
    | nil => simp at h
    | cons g gs =>
      simp only [List.getElem?_cons_succ] at h
      cases as with
      | nil => simp [predGatherAcc]
      | cons a as_ =>
        simp only [predGatherAcc, List.getElem?_cons_succ]
        exact ih gs as_ bs.tail h

theorem predGatherAcc_get_some {E : Type} (C : GraceCompressor E)
    (empty : Bool) (gs : List (Option Tensor)) (as bs : List Tensor) (i : ℕ)
    (gr a : Tensor)
    (hg : gs[i]? = some (some gr)) (ha : as[i]? = some a) :
    (predGatherAcc C empty gs as bs)[i]? =
      some (tadd a (predContrib C empty gr (bs[i]?.getD []))) := by
  induction i generalizing gs as bs with
  | zero =>
    cases gs with
    | nil => simp at hg
    | cons g gs =>
      cases as with
      | nil => simp at ha
      | cons a0 as_ =>
        simp only [List.getElem?_cons_zero, Option.some.injEq] at hg ha
        subst hg
        subst ha
        cases bs with
        | nil => simp [predGatherAcc]
        | cons b bs_ => simp [predGatherAcc]
  | succ i ih =>
    cases gs with
    | nil => simp at hg
    | cons g gs =>
      cases as with
      | nil => simp at ha
      | cons a0 as_ =>
        simp only [List.getElem?_cons_succ] at hg ha
        cases bs with
        | nil =>
          simp only [predGatherAcc, List.getElem?_cons_succ, List.tail_nil]
          have := ih gs as_ [] hg ha
          simpa using this
        | cons b bs_ =>
          simp only [predGatherAcc, List.getElem?_cons_succ, List.tail_cons]
          exact ih gs as_ bs_ hg ha

theorem turnGatherAcc_get_none {E : Type} (C : GraceCompressor E) (eps : ℚ)
    (empty : Bool) (effSign : Int) (gs : List (Option Tensor))
    (as ps ms : List Tensor) (i : ℕ) (h : gs[i]? = some none) :
    (turnGatherAcc C eps empty effSign gs as ps ms).1[i]? = as[i]? ∧
    (turnGatherAcc C eps empty effSign gs as ps ms).2.1[i]? = ps[i]? ∧
    (turnGatherAcc C eps empty effSign gs as ps ms).2.2[i]? = ms[i]? := by
  induction i generalizing gs as ps ms with
  | zero =>
    cases gs with
    | nil => simp at h
    | cons g gs =>
      simp only [List.getElem?_cons_zero, Option.some.injEq] at h
      subst h
      cases as with
      | nil => exact ⟨rfl, rfl, rfl⟩
      | cons a as_ =>
        cases ps with
        | nil => exact ⟨rfl, rfl, rfl⟩
        | cons p ps_ =>
          cases ms with
          | nil => exact ⟨rfl, rfl, rfl⟩
          | cons m ms_ => simp [turnGatherAcc]
  | succ i ih =>
    cases gs with
    | nil => simp at h
    | cons g gs =>
      simp only [List.getElem?_cons_succ] at h
      cases as with
      | nil => exact ⟨rfl, rfl, rfl⟩
      | cons a as_ =>
        cases ps with
        | nil => exact ⟨rfl, rfl, rfl⟩
        | cons p ps_ =>
          cases ms with
          | nil => exact ⟨rfl, rfl, rfl⟩
          | cons m ms_ =>
            have := ih gs as_ ps_ ms_ h
            cases g with
            | none =>
              simpa only [turnGatherAcc, List.getElem?_cons_succ] using this
            | some gr =>
              simpa only [turnGatherAcc, List.getElem?_cons_succ] using this

theorem turnGatherAcc_get_some {E : Type} (C : GraceCompressor E) (eps : ℚ)
    (empty : Bool) (effSign : Int) (gs : List (Option Tensor))
    (as ps ms : List Tensor) (i : ℕ) (gr a p m : Tensor)
    (hg : gs[i]? = some (some gr)) (ha : as[i]? = some a)
    (hp : ps[i]? = some p) (hm : ms[i]? = some m) :
    (turnGatherAcc C eps empty effSign gs as ps ms).1[i]? =
      some (tadd a (turnContrib C empty effSign gr p m)) ∧
    (turnGatherAcc C eps empty effSign gs as ps ms).2.1[i]? =
      some (if effSign = 1 then p else tadd p (indPos eps gr)) ∧
    (turnGatherAcc C eps empty effSign gs as ps ms).2.2[i]? =
      some (if effSign = 1 then tadd m (indNeg eps gr) else m) := by
  induction i generalizing gs as ps ms with
  | zero =>
    cases gs with
    | nil => simp at hg
    | cons g gs =>
      cases as with
      | nil => simp at ha
      | cons a0 as_ =>
        cases ps with
        | nil => simp at hp
        | cons p0 ps_ =>
          cases ms with
          | nil => simp at hm
          | cons m0 ms_ =>
            simp only [List.getElem?_cons_zero, Option.some.injEq] at hg ha hp hm
            subst hg
            subst ha
            subst hp
            subst hm
            simp [turnGatherAcc]
  | succ i ih =>
    cases gs with
    | nil => simp at hg
    | cons g gs =>
      cases as with
      | nil => simp at ha
      | cons a0 as_ =>
        cases ps with
        | nil => simp at hp
        | cons p0 ps_ =>
          cases ms with
          | nil => simp at hm
          | cons m0 ms_ =>
            simp only [List.getElem?_cons_succ] at hg ha hp hm
            have := ih gs as_ ps_ ms_ hg ha hp hm
            cases g with
            | none =>
              simpa only [turnGatherAcc, List.getElem?_cons_succ] using this
            | some gr0 =>
              simpa only [turnGatherAcc, List.getElem?_cons_succ] using this

/- ### Claim theorems -/

/-- Claim C1: in every wrapper variant (plain, predictive, predictive-turn),
whatever the contents of the gathered-gradient buffers, after `step()`
returns every parameter's accumulation buffer `_gatheredGradients[i]` is
exactly the all-zero tensor (the length hypotheses record that the buffers
were created one per parameter at construction). -/
theorem step_zeroes_gathered {E : Type} (C : GraceCompressor E)
    (sG : GraceState) (sP : PredState) (sT : TurnState)
    (hG : sG.gathered.length = sG.params.length)
    (hP1 : sP.gathered.length = sP.params.length)
    (hP2 : sP.buffer.length = sP.params.length)
    (hP3 : sP.momentumBuf.length = sP.params.length)
    (hT1 : sT.gathered.length = sT.params.length)
    (hT2 : sT.plus.length = sT.params.length)
    (hT3 : sT.minus.length = sT.params.length) :
    (∀ t ∈ (graceStep C sG).gathered, isZero t) ∧
    (∀ t ∈ (predStep C sP).gathered, isZero t) ∧
    (∀ t ∈ (turnStep C sT).gathered, isZero t) := by
  refine ⟨?_, ?_, ?_⟩
  · simp only [graceStep, graceStepAux_eq C sG.lr sG.params sG.gathered hG]
    exact forall_isZero_map_zeroLike sG.gathered
  · simp only [predStep,
      predStepAux_eq C sP.lr sP.momentum sP.bufferEmpty sP.params sP.gathered
        sP.buffer sP.momentumBuf hP1 hP2 hP3]
    exact forall_isZero_map_zeroLike sP.gathered
  · simp only [turnStep,
      turnStepAux_eq C sT.lr sT.graceSign sT.params sT.gathered sT.plus sT.minus
        hT1 hT2 hT3]
    exact forall_isZero_map_zeroLike sT.gathered

/-- Claim C2: within one round, the accumulation buffer after the final
`gather` does not depend on the order in which the client gradients are
processed — for any permutation of the per-client gradient lists, the plain
and predictive wrappers end the round with identical `_gatheredGradients`
(exact rational arithmetic). -/
theorem gather_order_invariant {E : Type} (C : GraceCompressor E)
    (gss gss' : List (List (Option Tensor))) (h : gss.Perm gss')
    (sG : GraceState) (sP : PredState) :
    (graceRound C gss sG).gathered = (graceRound C gss' sG).gathered ∧
    (predRound C gss sP).gathered = (predRound C gss' sP).gathered := by
  constructor
  · rw [graceRound_gathered, graceRound_gathered]
    exact foldl_perm_of_comm _
      (fun b a1 a2 => graceGatherAcc_comm C a1 a2 b) h sG.gathered
  · rw [predRound_gathered, predRound_gathered]
    exact foldl_perm_of_comm _
      (fun b a1 a2 => predGatherAcc_comm C sP.bufferEmpty a1 a2 b sP.buffer) h
      sP.gathered

/-- Witness for C2: two clients processed in either order. -/
theorem gather_order_invariant_w :
    ([[some [(1 : ℚ)]], [some [(2 : ℚ)]]] : List (List (Option Tensor))).Perm
      [[some [(2 : ℚ)]], [some [(1 : ℚ)]]] ∧
    ((graceRound idGrace [[some [(1 : ℚ)]], [some [(2 : ℚ)]]] sG1).gathered =
       (graceRound idGrace [[some [(2 : ℚ)]], [some [(1 : ℚ)]]] sG1).gathered ∧
     (predRound idGrace [[some [(1 : ℚ)]], [some [(2 : ℚ)]]] sP1).gathered =
       (predRound idGrace [[some [(2 : ℚ)]], [some [(1 : ℚ)]]] sP1).gathered) :=
  ⟨List.Perm.swap _ _ _,
   gather_order_invariant idGrace _ _ (List.Perm.swap _ _ _) sG1 sP1⟩

/-- Claim C3: in the predictive wrapper, starting from the round-0 state
(reference buffer flagged empty, accumulation buffers zero), gathering two
clients with per-parameter gradients `g1` and `g2` leaves the accumulation
buffer equal to `decompress(compress(g1)) + decompress(compress(g2))`, and
the buffer-empty flag is still set, so no residual/reference encoding was
used (`compress_with_reference` never enters the result). -/
theorem pred_round0_two_gathers {E : Type} (C : GraceCompressor E)
    (s : PredState) (g1 g2 : List Tensor)
    (hE : s.bufferEmpty = true)
    (hz : s.gathered = g1.map zeroLike)
    (hlen : g2.length = g1.length)
    (hDC : ∀ t : Tensor, (roundTrip C t).length = t.length) :
    (predGather C { predGather C { s with grads := g1.map some } with
        grads := g2.map some }).gathered =
      List.zipWith (fun x y => tadd (roundTrip C x) (roundTrip C y)) g1 g2 ∧
    (predGather C { predGather C { s with grads := g1.map some } with
        grads := g2.map some }).bufferEmpty = true := by
  have h1 : (predGather C { s with grads := g1.map some }).gathered =
      g1.map (roundTrip C) := by
    show predGatherAcc C s.bufferEmpty (g1.map some) s.gathered s.buffer = _
    rw [hE, hz, predGatherAcc_empty_some C g1 (g1.map zeroLike) s.buffer
      (by simp)]
    exact zipWith_rt_zeroLike C hDC g1
  constructor
  · show predGatherAcc C s.bufferEmpty (g2.map some)
      (predGather C { s with grads := g1.map some }).gathered s.buffer = _
    rw [h1, hE, predGatherAcc_empty_some C g2 (g1.map (roundTrip C)) s.buffer
      (by simp [hlen])]
    exact zipWith_rt_map C g1 g2
  · exact hE

/-- Witness for C3 at a concrete two-parameter, two-client round. -/
theorem pred_round0_two_gathers_w :
    ((⟨1, 0, [[0], [0, 0]], [none, none], [[0], [0, 0]], [[0], [0, 0]], true,
        [none, none]⟩ : PredState).bufferEmpty = true ∧
     (⟨1, 0, [[0], [0, 0]], [none, none], [[0], [0, 0]], [[0], [0, 0]], true,
        [none, none]⟩ : PredState).gathered =
       ([[(1 : ℚ)], [2, 3]] : List Tensor).map zeroLike ∧
     ([[(4 : ℚ)], [5, 6]] : List Tensor).length =
       ([[(1 : ℚ)], [2, 3]] : List Tensor).length) ∧
    (predGather idGrace { predGather idGrace
        { (⟨1, 0, [[0], [0, 0]], [none, none], [[0], [0, 0]], [[0], [0, 0]],
            true, [none, none]⟩ : PredState) with
          grads := ([[(1 : ℚ)], [2, 3]] : List Tensor).map some } with
        grads := ([[(4 : ℚ)], [5, 6]] : List Tensor).map some }).gathered =
      List.zipWith (fun x y => tadd (roundTrip idGrace x) (roundTrip idGrace y))
        [[(1 : ℚ)], [2, 3]] [[(4 : ℚ)], [5, 6]] :=
  ⟨⟨by decide, by decide, by decide⟩,
   (pred_round0_two_gathers idGrace _ [[(1 : ℚ)], [2, 3]] [[(4 : ℚ)], [5, 6]]
     (by decide) (by decide) (by decide) (fun t => rfl)).1⟩

/-- Counterexample to claim C4: when no `mode` keyword is supplied the
factory does not fail — it silently falls back to the default mode `3` and
constructs the plain wrapper. -/
theorem grace_optimizer_no_mode_defaults :
    grace_optimizer none = FactoryResult.ok WrapperKind.plain := rfl

/-- Claim C4 (amended): for every explicit mode code other than 0, 1 and 3
(in particular mode 2, which `parse_config` produces for take-turns without
predictive), construction fails — with an uncaught `UnboundLocalError`
because no branch assigned `cls`, not with a dedicated invalid-configuration
error — and no fallback occurs for an explicit unsupported code; but when the
`mode` keyword is absent the factory silently defaults to mode 3 (plain). -/
theorem grace_optimizer_mode_dispatch :
    (∀ m : Int, m ≠ 0 → m ≠ 1 → m ≠ 3 →
      grace_optimizer (some m) = FactoryResult.unboundLocalError) ∧
    grace_optimizer none = FactoryResult.ok WrapperKind.plain ∧
    parse_config ⟨false, true⟩ = 2 ∧
    grace_optimizer (some (parse_config ⟨false, true⟩)) =
      FactoryResult.unboundLocalError := by
  refine ⟨?_, rfl, rfl, rfl⟩
  intro m h0 h1 h3
  simp [grace_optimizer, h0, h1, h3]

/-- Witness for C4 (amended) at the reserved mode code 2. -/
theorem grace_optimizer_mode_dispatch_w :
    ((2 : Int) ≠ 0 ∧ (2 : Int) ≠ 1 ∧ (2 : Int) ≠ 3) ∧
    grace_optimizer (some 2) = FactoryResult.unboundLocalError :=
  ⟨by decide,
   grace_optimizer_mode_dispatch.1 2 (by decide) (by decide) (by decide)⟩

/-- Claim C5 is contradicted by the code: at turn 1 the parity sign `-1` is
written only into the instance attribute `self._current_sign`
(`wrapperSign`), while the branch logic of `gather` and `step` reads the
`current_sign` property, i.e. the compressor-held `graceSign`, which is
never updated from turn parity once the reference buffers are nonempty
(`compress_with_reference` receives no sign).  Hence after turns 0, 1 the
sign actually used is still `+1`, and `step()` applies `+1 * d_param`
(parameters become `[[2]]`) where the claimed parity sign `-1` would give
`[[0]]`. -/
theorem turn_sign_stale_run :
    turnRunS3.wrapperSign = -1 ∧
    turnRunS3.graceSign = 1 ∧
    parSign 1 = -1 ∧
    (turnStep idGrace turnRunS3).params = [[2]] ∧
    (turnStep idGrace { turnRunS3 with graceSign := -1 }).params = [[0]] := by
  refine ⟨rfl, rfl, rfl, ?_, ?_⟩ <;>
    norm_num [turnStep, turnRunS3, turnGather, turnGatherBody, turnGatherAcc,
      turnStepAux, turnContrib, turnPlusUpd, turnMinusUpd, turnD1, idGrace,
      tadd, tsub, tneg, smul, zeroLike, applyLr, zeroGrads, parSign, anyGrad,
      indPos, indNeg]

/-- Counterexample to claim C6: two predictive-wrapper states that differ
only in the stored momentum buffer (`[4]` versus `[0]`, momentum `1/2`)
produce identical parameters after `step()` while their smoothed momentum
buffers differ — so the quantity applied to the parameter is not derived
from the smoothed buffer `buf`; the smoothing is computed and stored but the
update uses the unsmoothed `d_param`. -/
theorem pred_step_momentum_unused :
    (predStep idGrace
        ⟨1, 1 / 2, [[0]], [none], [[1]], [[0]], true, [some [4]]⟩).params =
      (predStep idGrace
        ⟨1, 1 / 2, [[0]], [none], [[1]], [[0]], true, [some [0]]⟩).params ∧
    (predStep idGrace
        ⟨1, 1 / 2, [[0]], [none], [[1]], [[0]], true, [some [4]]⟩).momentumBuf ≠
      (predStep idGrace
        ⟨1, 1 / 2, [[0]], [none], [[1]], [[0]], true, [some [0]]⟩).momentumBuf := by
  constructor <;>
    norm_num [predStep, predStepAux, predD1, predBufUpd, idGrace, tadd, smul,
      zeroLike, applyLr, roundTrip]

/-- Claim C6 (amended): in the predictive wrapper's `step()`, when momentum
is nonzero the smoothing `buf = momentum * buf + d_param` is computed and
stored in the optimizer state, but the parameter update is derived from the
unsmoothed `d_param` (passed through a compress/decompress round trip), not
from `buf`: the new reference buffer holds exactly the applied quantity, the
parameters move by `-lr` times it, and the resulting parameters are
independent of the momentum state. -/
theorem pred_step_momentum_semantics {E : Type} (C : GraceCompressor E)
    (s : PredState) (other : List (Option Tensor))
    (hm : s.momentum ≠ 0)
    (h1 : s.gathered.length = s.params.length)
    (h2 : s.buffer.length = s.params.length)
    (h3 : s.momentumBuf.length = s.params.length)
    (h4 : other.length = s.params.length) :
    (predStep C s).momentumBuf =
      List.zipWith (fun m a => some (match m with
        | none => C.transAggregation a
        | some b => tadd (smul s.momentum b) (C.transAggregation a)))
        s.momentumBuf s.gathered ∧
    (predStep C s).buffer =
      List.zipWith (fun p ab => predD1 C s.momentum s.bufferEmpty p ab.2 ab.1)
        s.params (s.gathered.zip s.buffer) ∧
    (predStep C s).params =
      List.zipWith (applyLr s.lr) s.params ((predStep C s).buffer) ∧
    (predStep C s).params = (predStep C { s with momentumBuf := other }).params := by
  have hAux := predStepAux_eq C s.lr s.momentum s.bufferEmpty s.params
    s.gathered s.buffer s.momentumBuf h1 h2 h3
  have hAux2 := predStepAux_eq C s.lr s.momentum s.bufferEmpty s.params
    s.gathered s.buffer other h1 h2 h4
  refine ⟨?_, ?_, ?_, ?_⟩
  · show (predStepAux C s.lr s.momentum s.bufferEmpty s.params s.gathered
      s.buffer s.momentumBuf).2.2.2 = _
    rw [hAux]
    have he : predBufUpd C s.momentum = fun m a => some (match m with
        | none => C.transAggregation a
        | some b => tadd (smul s.momentum b) (C.transAggregation a)) := by
      funext m a
      simp [predBufUpd, hm]
    rw [he]
  · show (predStepAux C s.lr s.momentum s.bufferEmpty s.params s.gathered
      s.buffer s.momentumBuf).2.2.1 = _
    rw [hAux]
  · show (predStepAux C s.lr s.momentum s.bufferEmpty s.params s.gathered
      s.buffer s.momentumBuf).1 = List.zipWith (applyLr s.lr) s.params
      (predStepAux C s.lr s.momentum s.bufferEmpty s.params s.gathered
        s.buffer s.momentumBuf).2.2.1
    rw [hAux]
    exact zipWith_comp (applyLr s.lr)
      (fun p ab => predD1 C s.momentum s.bufferEmpty p ab.2 ab.1)
      s.params (s.gathered.zip s.buffer)
  · show (predStepAux C s.lr s.momentum s.bufferEmpty s.params s.gathered
      s.buffer s.momentumBuf).1 = (predStepAux C s.lr s.momentum s.bufferEmpty
      s.params s.gathered s.buffer other).1
    rw [hAux, hAux2]

/-- Witness for C6 (amended) at a concrete one-parameter state. -/
theorem pred_step_momentum_semantics_w :
    (sP1.momentum ≠ 0 ∧
     sP1.gathered.length = sP1.params.length ∧
     sP1.buffer.length = sP1.params.length ∧
     sP1.momentumBuf.length = sP1.params.length ∧
     ([none] : List (Option Tensor)).length = sP1.params.length) ∧
    ((predStep idGrace sP1).momentumBuf =
      List.zipWith (fun m a => some (match m with
        | none => idGrace.transAggregation a
        | some b => tadd (smul sP1.momentum b) (idGrace.transAggregation a)))
        sP1.momentumBuf sP1.gathered ∧
     (predStep idGrace sP1).buffer =
      List.zipWith (fun p ab => predD1 idGrace sP1.momentum sP1.bufferEmpty p
        ab.2 ab.1) sP1.params (sP1.gathered.zip sP1.buffer) ∧
     (predStep idGrace sP1).params =
      List.zipWith (applyLr sP1.lr) sP1.params ((predStep idGrace sP1).buffer) ∧
     (predStep idGrace sP1).params =
      (predStep idGrace { sP1 with momentumBuf := [none] }).params) :=
  ⟨⟨by norm_num [sP1], by decide, by decide, by decide, by decide⟩,
   pred_step_momentum_semantics idGrace sP1 [none] (by norm_num [sP1])
     (by decide) (by decide) (by decide) (by decide)⟩

/-- Claim C7: after `step()`, the buffers for the next round hold: in plain
predictive mode the reference buffer equals the applied `d_param` for each
parameter (the parameters moved by exactly `-lr` times the new reference
buffer); in turn mode the buffer matching `current_sign` is zeroed while the
opposite-sign buffer's accumulated drift is replaced by its fold through
`trans_aggregation` with the negated sign (negated again for the minus
buffer, mirroring lines 251-256 of src/grace_fl/gc_optimizer.py). -/
theorem step_reference_buffer_update {E : Type} (C : GraceCompressor E)
    (sP : PredState) (sT : TurnState)
    (hP1 : sP.gathered.length = sP.params.length)
    (hP2 : sP.buffer.length = sP.params.length)
    (hP3 : sP.momentumBuf.length = sP.params.length)
    (hT1 : sT.gathered.length = sT.params.length)
    (hT2 : sT.plus.length = sT.params.length)
    (hT3 : sT.minus.length = sT.params.length) :
    (predStep C sP).params =
      List.zipWith (applyLr sP.lr) sP.params ((predStep C sP).buffer) ∧
    (sT.graceSign = 1 →
      (turnStep C sT).plus = sT.plus.map zeroLike ∧
      (turnStep C sT).minus =
        sT.minus.map (fun b => tneg (C.transAggregationSign b (-sT.graceSign)))) ∧
    (sT.graceSign ≠ 1 →
      (turnStep C sT).minus = sT.minus.map zeroLike ∧
      (turnStep C sT).plus =
        sT.plus.map (fun b => C.transAggregationSign b (-sT.graceSign))) := by
  have hAux := predStepAux_eq C sP.lr sP.momentum sP.bufferEmpty sP.params
    sP.gathered sP.buffer sP.momentumBuf hP1 hP2 hP3
  have hT := turnStepAux_eq C sT.lr sT.graceSign sT.params sT.gathered sT.plus
    sT.minus hT1 hT2 hT3
  refine ⟨?_, ?_, ?_⟩
  · show (predStepAux C sP.lr sP.momentum sP.bufferEmpty sP.params sP.gathered
      sP.buffer sP.momentumBuf).1 = List.zipWith (applyLr sP.lr) sP.params
      (predStepAux C sP.lr sP.momentum sP.bufferEmpty sP.params sP.gathered
        sP.buffer sP.momentumBuf).2.2.1
    rw [hAux]
    exact zipWith_comp (applyLr sP.lr)
      (fun p ab => predD1 C sP.momentum sP.bufferEmpty p ab.2 ab.1)
      sP.params (sP.gathered.zip sP.buffer)
  · intro h
    constructor
    · show (turnStepAux C sT.lr sT.graceSign sT.params sT.gathered sT.plus
        sT.minus).2.2.1 = _
      rw [hT]
      have he : turnPlusUpd C sT.graceSign = zeroLike := by
        funext pb
        simp [turnPlusUpd, h]
      rw [he]
    · show (turnStepAux C sT.lr sT.graceSign sT.params sT.gathered sT.plus
        sT.minus).2.2.2 = _
      rw [hT]
      have he : turnMinusUpd C sT.graceSign =
          fun b => tneg (C.transAggregationSign b (-sT.graceSign)) := by
        funext mb
        simp [turnMinusUpd, h]
      rw [he]
  · intro h
    constructor
    · show (turnStepAux C sT.lr sT.graceSign sT.params sT.gathered sT.plus
        sT.minus).2.2.2 = _
      rw [hT]
      have he : turnMinusUpd C sT.graceSign = zeroLike := by
        funext mb
        simp [turnMinusUpd, h]
      rw [he]
    · show (turnStepAux C sT.lr sT.graceSign sT.params sT.gathered sT.plus
        sT.minus).2.2.1 = _
      rw [hT]
      have he : turnPlusUpd C sT.graceSign =
          fun b => C.transAggregationSign b (-sT.graceSign) := by
        funext pb
        simp [turnPlusUpd, h]
      rw [he]

/-- Witness for C7 at concrete one-parameter states (turn sign `+1`). -/
theorem step_reference_buffer_update_w :
    (sP1.gathered.length = sP1.params.length ∧
     sP1.buffer.length = sP1.params.length ∧
     sP1.momentumBuf.length = sP1.params.length ∧
     sT1.gathered.length = sT1.params.length ∧
     sT1.plus.length = sT1.params.length ∧
     sT1.minus.length = sT1.params.length) ∧
    ((predStep idGrace sP1).params =
      List.zipWith (applyLr sP1.lr) sP1.params ((predStep idGrace sP1).buffer) ∧
     (sT1.graceSign = 1 →
      (turnStep idGrace sT1).plus = sT1.plus.map zeroLike ∧
      (turnStep idGrace sT1).minus = sT1.minus.map
        (fun b => tneg (idGrace.transAggregationSign b (-sT1.graceSign)))) ∧
     (sT1.graceSign ≠ 1 →
      (turnStep idGrace sT1).minus = sT1.minus.map zeroLike ∧
      (turnStep idGrace sT1).plus = sT1.plus.map
        (fun b => idGrace.transAggregationSign b (-sT1.graceSign)))) :=
  ⟨by decide,
   step_reference_buffer_update idGrace sP1 sT1 (by decide) (by decide)
     (by decide) (by decide) (by decide) (by decide)⟩

/-- Claim C8: when `gather` is invoked on the turn-mode wrapper without a
`turn` keyword, the `KeyError` is caught, a configuration error is logged,
and execution continues through the gathering loop with the sign state from
before the call: neither `self._current_sign` (`wrapperSign`) nor `self.turn`
is written, and the gathering outcome (accumulation, sign buffers,
compressor-held sign) equals that of the loop body run on the unchanged sign
state. -/
theorem turn_gather_missing_turn {E : Type} (C : GraceCompressor E) (eps : ℚ)
    (s : TurnState) :
    turnGather C eps none s =
      turnGatherBody C eps { s with log := s.log ++ [LogMsg.turnMissing] } ∧
    (turnGather C eps none s).log = s.log ++ [LogMsg.turnMissing] ∧
    (turnGather C eps none s).wrapperSign = s.wrapperSign ∧
    (turnGather C eps none s).turn = s.turn ∧
    (turnGather C eps none s).gathered = (turnGatherBody C eps s).gathered ∧
    (turnGather C eps none s).plus = (turnGatherBody C eps s).plus ∧
    (turnGather C eps none s).minus = (turnGatherBody C eps s).minus ∧
    (turnGather C eps none s).graceSign = (turnGatherBody C eps s).graceSign :=
  ⟨rfl, rfl, rfl, rfl, rfl, rfl, rfl, rfl⟩

/-- Counterexample to claim C9: a `user_resource` missing only the `device`
field logs a configuration error but construction is NOT aborted — it
returns an object whose `device` attribute was never assigned (a
partially-initialized `LocalUpdater`). -/
theorem localUpdater_missing_device_ok :
    localUpdaterInit ⟨some 32, none, some [1], some [0]⟩ =
      (InitResult.ok ⟨32, none⟩, [LogMsg.missingHyper]) := rfl

/-- Claim C9 (amended): at `LocalUpdater` construction, a missing
`batch_size` logs a configuration error and construction aborts with an
uncaught exception (`AttributeError`, or `KeyError` if samples are also
missing); missing `images` or `labels` abort with an uncaught `KeyError`;
but a missing `device` alone only logs the error and construction completes,
leaving a partially-initialized object without a `device` attribute. -/
theorem localUpdaterInit_spec (ur : UserResource) (bs d : Nat)
    (im lb : Tensor) :
    (ur.batch_size = none →
      (localUpdaterInit ur).2 = [LogMsg.missingHyper] ∧
      ∃ e, (localUpdaterInit ur).1 = InitResult.raised e) ∧
    (ur.images = none ∨ ur.labels = none →
      (localUpdaterInit ur).1 = InitResult.raised PyErr.keyError) ∧
    localUpdaterInit ⟨some bs, none, some im, some lb⟩ =
      (InitResult.ok ⟨bs, none⟩, [LogMsg.missingHyper]) ∧
    localUpdaterInit ⟨some bs, some d, some im, some lb⟩ =
      (InitResult.ok ⟨bs, some d⟩, []) := by
  obtain ⟨b0, d0, i0, l0⟩ := ur
  refine ⟨?_, ?_, rfl, rfl⟩
  · rintro rfl
    cases i0 <;> cases l0 <;> simp [localUpdaterInit]
  · intro h
    cases b0 <;> cases d0 <;> cases i0 <;> cases l0 <;>
      simp_all [localUpdaterInit]

/-- Witness for C9 (amended) at concrete resource mappings. -/
theorem localUpdaterInit_spec_w :
    ((localUpdaterInit ⟨none, some 0, some [1], some [2]⟩).2 =
        [LogMsg.missingHyper] ∧
     ∃ e, (localUpdaterInit ⟨none, some 0, some [1], some [2]⟩).1 =
        InitResult.raised e) ∧
    (localUpdaterInit ⟨some 3, some 0, none, some [2]⟩).1 =
      InitResult.raised PyErr.keyError ∧
    localUpdaterInit ⟨some 3, none, some [1], some [2]⟩ =
      (InitResult.ok ⟨3, none⟩, [LogMsg.missingHyper]) ∧
    localUpdaterInit ⟨some 3, some 0, some [1], some [2]⟩ =
      (InitResult.ok ⟨3, some 0⟩, []) :=
  ⟨(localUpdaterInit_spec ⟨none, some 0, some [1], some [2]⟩ 3 0 [1] [2]).1 rfl,
   (localUpdaterInit_spec ⟨some 3, some 0, none, some [2]⟩ 3 0 [1] [2]).2.1
     (Or.inl rfl),
   (localUpdaterInit_spec ⟨some 3, some 0, some [1], some [2]⟩ 3 0 [1] [2]).2.2.1,
   (localUpdaterInit_spec ⟨some 3, some 0, some [1], some [2]⟩ 3 0 [1] [2]).2.2.2⟩

/-- Claim C10: in every wrapper variant, `gather` skips a parameter whose
local gradient is absent — its accumulation-buffer entry, reference/sign
buffer entries and gradient are left unchanged — while parameters carrying a
gradient are processed normally (their buffer entry receives the
variant-appropriate decompressed contribution); the predictive wrapper's
reference buffer and momentum state are untouched by `gather` altogether. -/
theorem gather_skips_absent_grads {E : Type} (C : GraceCompressor E) (eps : ℚ)
    (turnArg : Option Int) (sG : GraceState) (sP : PredState) (sT : TurnState)
    (i j k : ℕ) :
    (sG.grads[i]? = some none →
      (graceGather C sG).gathered[i]? = sG.gathered[i]? ∧
      (graceGather C sG).grads[i]? = some none) ∧
    (∀ gr a, sG.grads[i]? = some (some gr) → sG.gathered[i]? = some a →
      (graceGather C sG).gathered[i]? = some (tadd a (roundTrip C gr))) ∧
    (predGather C sP).buffer = sP.buffer ∧
    (predGather C sP).momentumBuf = sP.momentumBuf ∧
    (sP.grads[j]? = some none →
      (predGather C sP).gathered[j]? = sP.gathered[j]? ∧
      (predGather C sP).grads[j]? = some none) ∧
    (∀ gr a, sP.grads[j]? = some (some gr) → sP.gathered[j]? = some a →
      (predGather C sP).gathered[j]? =
        some (tadd a (predContrib C sP.bufferEmpty gr (sP.buffer[j]?.getD [])))) ∧
    (sT.grads[k]? = some none →
      (turnGather C eps turnArg sT).gathered[k]? = sT.gathered[k]? ∧
      (turnGather C eps turnArg sT).plus[k]? = sT.plus[k]? ∧
      (turnGather C eps turnArg sT).minus[k]? = sT.minus[k]? ∧
      (turnGather C eps turnArg sT).grads[k]? = some none) ∧
    (∀ gr a p m, sT.grads[k]? = some (some gr) → sT.gathered[k]? = some a →
      sT.plus[k]? = some p → sT.minus[k]? = some m →
      (turnGatherBody C eps sT).gathered[k]? =
        some (tadd a (turnContrib C sT.bufferEmpty
          (if sT.bufferEmpty then sT.wrapperSign else sT.graceSign) gr p m))) := by
  refine ⟨?_, ?_, rfl, rfl, ?_, ?_, ?_, ?_⟩
  · intro h
    refine ⟨graceGatherAcc_get_none C sG.grads sG.gathered i h, ?_⟩
    show (zeroGrads sG.grads)[i]? = some none
    simp [zeroGrads, h]
  · intro gr a hg ha
    exact graceGatherAcc_get_some C sG.grads sG.gathered i gr a hg ha
  · intro h
    refine ⟨predGatherAcc_get_none C sP.bufferEmpty sP.grads sP.gathered
      sP.buffer j h, ?_⟩
    show (zeroGrads sP.grads)[j]? = some none
    simp [zeroGrads, h]
  · intro gr a hg ha
    exact predGatherAcc_get_some C sP.bufferEmpty sP.grads sP.gathered
      sP.buffer j gr a hg ha
  · intro h
    cases turnArg with
    | some t =>
      have hb := turnGatherAcc_get_none C eps sT.bufferEmpty
        (if sT.bufferEmpty then parSign t else sT.graceSign)
        sT.grads sT.gathered sT.plus sT.minus k h
      refine ⟨hb.1, hb.2.1, hb.2.2, ?_⟩
      show (zeroGrads sT.grads)[k]? = some none
      simp [zeroGrads, h]
    | none =>
      have hb := turnGatherAcc_get_none C eps sT.bufferEmpty
        (if sT.bufferEmpty then sT.wrapperSign else sT.graceSign)
        sT.grads sT.gathered sT.plus sT.minus k h
      refine ⟨hb.1, hb.2.1, hb.2.2, ?_⟩
      show (zeroGrads sT.grads)[k]? = some none
      simp [zeroGrads, h]
  · intro gr a p m hg ha hp hm
    exact (turnGatherAcc_get_some C eps sT.bufferEmpty
      (if sT.bufferEmpty then sT.wrapperSign else sT.graceSign)
      sT.grads sT.gathered sT.plus sT.minus k gr a p m hg ha hp hm).1

/-- Witness for C10 at concrete two-parameter states (first parameter's
gradient absent, second present). -/
theorem gather_skips_absent_grads_w :
    (sG2.grads[0]? = some none ∧
     (graceGather idGrace sG2).gathered[0]? = sG2.gathered[0]? ∧
     (graceGather idGrace sG2).grads[0]? = some none ∧
     (graceGather idGrace sG2).gathered[1]? =
       some (tadd [5] (roundTrip idGrace [3]))) ∧
    ((predGather idGrace sP2).buffer = sP2.buffer ∧
     (predGather idGrace sP2).gathered[0]? = sP2.gathered[0]? ∧
     (predGather idGrace sP2).gathered[1]? =
       some (tadd [5] (predContrib idGrace sP2.bufferEmpty [3]
         (sP2.buffer[1]?.getD [])))) ∧
    ((turnGather idGrace (1 / 100) (some 0) sT2).gathered[0]? =
       sT2.gathered[0]? ∧
     (turnGather idGrace (1 / 100) (some 0) sT2).plus[0]? = sT2.plus[0]? ∧
     (turnGather idGrace (1 / 100) (some 0) sT2).minus[0]? = sT2.minus[0]? ∧
     (turnGatherBody idGrace (1 / 100) sT2).gathered[1]? =
       some (tadd [5] (turnContrib idGrace sT2.bufferEmpty
         (if sT2.bufferEmpty then sT2.wrapperSign else sT2.graceSign)
         [3] [7] [9]))) := by
  have T0 := gather_skips_absent_grads idGrace (1 / 100) (some 0) sG2 sP2 sT2 0 0 0
  have T1 := gather_skips_absent_grads idGrace (1 / 100) (some 0) sG2 sP2 sT2 1 1 1
  exact ⟨⟨rfl, (T0.1 rfl).1, (T0.1 rfl).2, T1.2.1 [3] [5] rfl rfl⟩,
    ⟨T0.2.2.1, (T0.2.2.2.2.1 rfl).1,
     T1.2.2.2.2.2.1 [3] [5] rfl rfl⟩,
    ⟨(T0.2.2.2.2.2.2.1 rfl).1, (T0.2.2.2.2.2.2.1 rfl).2.1,
     (T0.2.2.2.2.2.2.1 rfl).2.2.1,
     T1.2.2.2.2.2.2.2 [3] [5] [7] [9] rfl rfl rfl rfl⟩⟩

/-- Witness for C1 at concrete one-parameter states. -/
theorem step_zeroes_gathered_w :
    (sG1.gathered.length = sG1.params.length ∧
     sP1.gathered.length = sP1.params.length ∧
     sP1.buffer.length = sP1.params.length ∧
     sP1.momentumBuf.length = sP1.params.length ∧
     sT1.gathered.length = sT1.params.length ∧
     sT1.plus.length = sT1.params.length ∧
     sT1.minus.length = sT1.params.length) ∧
    ((∀ t ∈ (graceStep idGrace sG1).gathered, isZero t) ∧
     (∀ t ∈ (predStep idGrace sP1).gathered, isZero t) ∧
     (∀ t ∈ (turnStep idGrace sT1).gathered, isZero t)) :=
  ⟨by decide,
   step_zeroes_gathered idGrace sG1 sP1 sT1 (by decide) (by decide) (by decide)
     (by decide) (by decide) (by decide) (by decide)⟩

end GCFL
